import Mathlib

/-!
Verification of the orca control plane (Go) against its specification.

This file contains a shallow embedding of the parts of the source that the
claims below are about, followed by one theorem per claim.  Each definition
is translated from a named Go function; the file/line references are given
in the doc comments.  Go machine integers are modelled as Lean `Int`
(no value in any statement here approaches 2^63, so overflow never matters),
Go `time.Time`/`time.Duration` as `Nat` seconds, Go string-typed enums
(phases, kinds) as `String`, Go maps used as sets as `List String` with
set-like insert/erase, and the store as association lists keyed by `String`.
-/

namespace Orca

/-! ### Data model, from pkg/apis/v1alpha1 (types.go)

Phases are string-typed in Go, so they are `String` here; the named
constants below mirror the Go constants.  The zero value of a phase is the
empty string, exactly as for an absent JSON field in Go. -/

def apiVersionV1alpha1 : String := "orca.dev/v1alpha1"

def kindProject : String := "Project"

def kindAgentPod : String := "AgentPod"

def kindAgentPool : String := "AgentPool"

def kindDevTask : String := "DevTask"

def podPending : String := "Pending"

def podStarting : String := "Starting"

def podReady : String := "Ready"

def podBusy : String := "Busy"

def podFailed : String := "Failed"

def podTerminating : String := "Terminating"

def podTerminated : String := "Terminated"

def taskPending : String := "Pending"

def taskScheduled : String := "Scheduled"

def taskRunning : String := "Running"

def taskSucceeded : String := "Succeeded"

def taskFailed : String := "Failed"

/-- ObjectMeta from types.go: metadata common to all resources. -/
structure ObjectMeta where
  name : String
  project : String
  labels : List (String × String)
  uid : String
  createdAt : Nat
  updatedAt : Nat
deriving DecidableEq, Repr

/-- AgentPodSpec from types.go. -/
structure AgentPodSpec where
  model : String
  systemPrompt : String
  capabilities : List String
  maxConcurrency : Int
  maxTokens : Int
  tools : List String
  restartPolicy : String
  ownerPool : String
deriving DecidableEq, Repr

/-- AgentPodStatus from types.go. -/
structure AgentPodStatus where
  phase : String
  activeTasks : Int
  completedTasks : Int
  failedTasks : Int
  lastHeartbeat : Nat
  message : String
  startedAt : Nat
deriving DecidableEq, Repr

/-- AgentPod from types.go (TypeMeta inlined as two fields, as in Go). -/
structure AgentPod where
  apiVersion : String
  kind : String
  metadata : ObjectMeta
  spec : AgentPodSpec
  status : AgentPodStatus
deriving DecidableEq, Repr

/-- DevTaskSpec from types.go. -/
structure DevTaskSpec where
  prompt : String
  requiredCapabilities : List String
  preferredModel : String
  maxRetries : Int
  timeoutSeconds : Int
  dependsOn : List String
deriving DecidableEq, Repr

/-- DevTaskStatus from types.go. -/
structure DevTaskStatus where
  phase : String
  assignedPod : String
  retries : Int
  output : String
  error : String
  startedAt : Nat
  finishedAt : Nat
deriving DecidableEq, Repr

/-- DevTask from types.go. -/
structure DevTask where
  apiVersion : String
  kind : String
  metadata : ObjectMeta
  spec : DevTaskSpec
  status : DevTaskStatus
deriving DecidableEq, Repr

/-- AgentPoolStatus from types.go: the three observed replica counts. -/
structure AgentPoolStatus where
  replicas : Int
  readyReplicas : Int
  busyReplicas : Int
deriving DecidableEq, Repr

/-- AgentPoolSpec from types.go (the pod template is not needed by any
claim settled here, so only the fields the claims read are carried). -/
structure AgentPoolSpec where
  replicas : Int
  selector : List (String × String)
deriving DecidableEq, Repr

/-- AgentPool from types.go. -/
structure AgentPool where
  apiVersion : String
  kind : String
  metadata : ObjectMeta
  spec : AgentPoolSpec
  status : AgentPoolStatus
deriving DecidableEq, Repr

/-- ResourceKey from internal/store/store.go. -/
def resourceKey (kind project name : String) : String :=
  "/" ++ kind ++ "/" ++ project ++ "/" ++ name

/-! ### Work queue, from internal/controller/manager.go

The queue state is `items` (ordered list of workItem), the `dirty` and
`processing` Go map-sets (modelled as duplicate-free lists), and the
`closed` flag.  Durations are seconds; the zero `time.Time` used by Add and
Done for an immediately-ready item is second 0. -/

/-- workItem from manager.go. -/
structure WorkItem where
  key : String
  attempts : Nat
  nextRetry : Nat
deriving DecidableEq, Repr

/-- Insertion into a Go map used as a set (m[k] = true). -/
def setInsert (s : List String) (k : String) : List String :=
  if k ∈ s then s else s ++ [k]

/-- Deletion from a Go map used as a set (delete(m, k)). -/
def setErase (s : List String) (k : String) : List String :=
  s.filter (fun x => x ≠ k)

/-- WorkQueue from manager.go. -/
structure WorkQueue where
  items : List WorkItem
  dirty : List String
  processing : List String
  closed : Bool
deriving DecidableEq, Repr

/-- NewWorkQueue from manager.go. -/
def WorkQueue.empty : WorkQueue :=
  { items := [], dirty := [], processing := [], closed := false }

/-- initialBackoff from manager.go, in seconds. -/
def initialBackoffSec : Nat := 1

/-- maxBackoff from manager.go, in seconds. -/
def maxBackoffSec : Nat := 60

/-- WorkQueue.Add from manager.go: mark dirty; if the key is processing or
already queued do not append; otherwise append an immediately-ready item. -/
def WorkQueue.add (q : WorkQueue) (key : String) : WorkQueue :=
  if q.closed then q
  else
    let q1 : WorkQueue := { q with dirty := setInsert q.dirty key }
    if key ∈ q1.processing then q1
    else if q1.items.any (fun it => it.key = key) then q1
    else { q1 with items := q1.items ++ [⟨key, 0, 0⟩] }

/-- The scan inside WorkQueue.Get from manager.go: remove and return the
first item (in queue order) whose nextRetry has passed. -/
def extractReady (now : Nat) : List WorkItem → Option (WorkItem × List WorkItem)
  | [] => none
  | it :: rest =>
    if it.nextRetry ≤ now then some (it, rest)
    else
      match extractReady now rest with
      | some (r, restTail) => some (r, it :: restTail)
      | none => none

/-- WorkQueue.Get from manager.go, as the single non-blocking attempt made
at time `now` (the Go loop blocks and retries; the blocking is irrelevant
to the claims below).  Returns the handed-out key, if any, and the new
queue state with the key moved into the processing set. -/
def WorkQueue.get (q : WorkQueue) (now : Nat) : Option String × WorkQueue :=
  if q.closed && q.items.isEmpty then (none, q)
  else
    match extractReady now q.items with
    | some (it, rest) =>
        (some it.key,
         { q with items := rest, processing := setInsert q.processing it.key })
    | none => (none, q)

/-- WorkQueue.Done from manager.go: remove the key from processing; if the
key is in the dirty set, delete and re-insert the dirty mark and append a
fresh immediately-ready item. -/
def WorkQueue.done (q : WorkQueue) (key : String) : WorkQueue :=
  let q1 : WorkQueue := { q with processing := setErase q.processing key }
  if key ∈ q1.dirty then
    { q1 with
      dirty := setInsert (setErase q1.dirty key) key,
      items := q1.items ++ [⟨key, 0, 0⟩] }
  else q1

/-- The attempts lookup inside WorkQueue.Requeue from manager.go: scan
`items` for the key; on a hit return its attempts and the list without it,
otherwise return 0 and the untouched list. -/
def findAttempts (key : String) : List WorkItem → Nat × List WorkItem
  | [] => (0, [])
  | it :: rest =>
    if it.key = key then (it.attempts, rest)
    else
      let r := findAttempts key rest
      (r.1, it :: r.2)

/-- The backoff computation in WorkQueue.Requeue from manager.go:
initialBackoff shifted left by attempts-1, capped at maxBackoff. -/
def backoffFor (attempts : Nat) : Nat :=
  min maxBackoffSec (initialBackoffSec * 2 ^ (attempts - 1))

/-- WorkQueue.Requeue from manager.go: recover the attempt count from the
ready list (0 when the key is not there), increment it, compute the backoff
delay, remove the key from processing, mark it dirty, and append the item
with a future nextRetry. -/
def WorkQueue.requeue (q : WorkQueue) (key : String) (now : Nat) : WorkQueue :=
  if q.closed then q
  else
    let r := findAttempts key q.items
    let attempts := r.1 + 1
    { q with
      items := r.2 ++ [⟨key, attempts, now + backoffFor attempts⟩],
      processing := setErase q.processing key,
      dirty := setInsert q.dirty key }

/-- The state reached by the trace Add "k"; Get; Done "k" with no further
Add while "k" was processing. -/
def c1Trace : WorkQueue :=
  ((WorkQueue.empty.add "k").get 0).2.done "k"

/-- C1: on the trace Add(k); Get() = k; Done(k) with no Add(k) while k was
in the processing set, the claim requires Done to clear the dirty mark and
not re-append k.  The code never clears the dirty mark in Get, so Done
finds dirty["k"] still set from the original Add and re-appends k — and
leaves the dirty mark in place, so one more Get/Done cycle re-appends it
again.  This theorem evaluates the embedded queue on that trace: k is
handed out, yet after Done the ready list again holds k (attempts 0, ready
at once) and the dirty mark is still set, and the same happens after a
second Get/Done cycle. -/
theorem C1_done_requeues_despite_no_add :
    (((WorkQueue.empty.add "k").get 0).1 = some "k") ∧
    c1Trace.items = [⟨"k", 0, 0⟩] ∧
    "k" ∈ c1Trace.dirty ∧
    ((c1Trace.get 0).1 = some "k") ∧
    ((c1Trace.get 0).2.done "k").items = [⟨"k", 0, 0⟩] ∧
    "k" ∈ ((c1Trace.get 0).2.done "k").dirty := by
  decide

/-- The queue state after two consecutive failures of "k": Add "k";
Get at t=0; Requeue at t=0; Get at t=1 (the backoff has passed);
Requeue at t=1. -/
def c2Trace : WorkQueue :=
  (((((WorkQueue.empty.add "k").get 0).2.requeue "k" 0).get 1).2).requeue "k" 1

/-- C2: after the n-th consecutive Get/Requeue failure the claim requires
attempts = n and delay min(60, 2^(n-1)) seconds, so the second Requeue must
store attempts = 2 and nextRetry = 1 + 2 = 3.  The code recovers the
attempt count by scanning the ready list, but Get has already removed the
in-flight item from that list, so the scan always yields 0 and every
Requeue stores attempts = 1 with a 1-second delay: after the second
failure at t = 1 the queued item is ⟨"k", 1, 2⟩, not ⟨"k", 2, 3⟩ —
the backoff never doubles. -/
theorem C2_backoff_stays_constant :
    c2Trace.items = [⟨"k", 1, 2⟩] ∧
    (⟨"k", 1, 2⟩ : WorkItem) ≠ ⟨"k", 2, 3⟩ := by
  decide

/-! ### Scheduler, from internal/scheduler

Predicates (predicates.go) and priorities (priorities.go) are direct
translations; Schedule (scheduler.go) filters the listed pods through all
predicates, sums the priority scores, sorts descending by total score with
sort.Slice and returns the head.  Go's sort.Slice is pdqsort, which runs a
stable insertion sort on slices of at most 12 elements and an unstable
partition scheme above that; the sort below is that stable insertion sort.
It therefore coincides with the program exactly when at most 12 pods are
feasible, and for longer slices it agrees up to a permutation of pods that
tie on total score (both outputs are score-sorted permutations of the same
input, so they can differ only in the order of equal scores).  Accordingly,
statements below quantified over arbitrary lists assert only properties
that are invariant under permuting tying pods (failure exactly on an empty
survivor set; the returned pod is feasible with maximal total score), and
the exact first-in-listing-order tie-break is asserted only under the
hypothesis that at most 12 pods are feasible.  The order of the input list
is the iteration order of the Go map inside MemoryStore.List
(store_test.go), which the Go language leaves unspecified and the runtime
randomises, so the list argument of `schedule` carries exactly the
nondeterminism the store exposes to the scheduler. -/

def c3Task : DevTask :=
  { apiVersion := apiVersionV1alpha1, kind := kindDevTask
    metadata := { name := "t", project := "p", labels := [], uid := "ut", createdAt := 0, updatedAt := 0 }
    spec := { prompt := "do", requiredCapabilities := [], preferredModel := "",
              maxRetries := 0, timeoutSeconds := 0, dependsOn := [] }
    status := { phase := taskPending, assignedPod := "", retries := 0, output := "",
                error := "", startedAt := 0, finishedAt := 0 } }

/-- Lookup in an association-list store. -/
def lookupKV {α : Type} (l : List (String × α)) (k : String) : Option α :=
  (l.find? (fun p => p.1 == k)).map (fun p => p.2)

/-- MemoryStore.Update semantics on an association list: replace the value
when the key is present, fail with NotFound (none) when it is absent. -/
def updateKV {α : Type} (l : List (String × α)) (k : String) (v : α) :
    Option (List (String × α)) :=
  if l.any (fun p => p.1 == k) then
    some (l.map (fun p => if p.1 == k then (k, v) else p))
  else none

/-- The slice of the store that ExecuteTask touches. -/
structure StoreState where
  tasks : List (String × DevTask)
  pods : List (String × AgentPod)
deriving DecidableEq, Repr

/-- ExecutionRequest from executor.go. -/
structure ExecutionRequest where
  model : String
  systemPrompt : String
  prompt : String
  maxTokens : Int
deriving DecidableEq, Repr

/-- The request construction in ExecuteTask (runtime.go lines 167-183):
pod defaults overridden by the task preferred model, pod maxTokens
defaulted from the configuration when zero. -/
def buildRequest (task : DevTask) (pod : AgentPod) (defaultMaxTokens : Int) :
    ExecutionRequest :=
  { model := if task.spec.preferredModel ≠ "" then task.spec.preferredModel else pod.spec.model
    systemPrompt := pod.spec.systemPrompt
    prompt := task.spec.prompt
    maxTokens := if pod.spec.maxTokens = 0 then defaultMaxTokens else pod.spec.maxTokens }

/-- The mutex-protected section of ExecuteTask that marks the pod Busy
(runtime.go lines 156-165), acting on the caller-local pod copy. -/
def execBusyStep (pod : AgentPod) (now : Nat) : AgentPod :=
  { pod with
    status := { pod.status with phase := podBusy, activeTasks := pod.status.activeTasks + 1 }
    metadata := { pod.metadata with updatedAt := now } }

/-- The mutex-protected section of ExecuteTask that returns the pod to
Ready and updates the counters (runtime.go lines 222-236), acting on the
caller-local pod copy. -/
def execDoneStep (pod : AgentPod) (failed : Bool) (finishedAt : Nat) : AgentPod :=
  { pod with
    status := { pod.status with
      phase := podReady
      activeTasks := pod.status.activeTasks - 1
      failedTasks := if failed then pod.status.failedTasks + 1 else pod.status.failedTasks
      completedTasks := if failed then pod.status.completedTasks else pod.status.completedTasks + 1 }
    metadata := { pod.metadata with updatedAt := finishedAt } }

/-- The exact invocation ExecuteTask makes on the downstream executor
(runtime.go line 186): the request built from pod defaults and task
preferences, and the unmodified caller context deadline.  The executor is a
parameter; its second argument is the deadline of the context it receives. -/
def executorInvocation (task : DevTask) (pod : AgentPod) (defaultMaxTokens : Int)
    (ctxDeadline : Option Nat) : ExecutionRequest × Option Nat :=
  (buildRequest task pod defaultMaxTokens, ctxDeadline)

/-- Runtime.ExecuteTask from runtime.go (lines 136-239): mark the task
Running; mark the pod Busy with activeTasks incremented; call the executor;
write the task result (Succeeded with output, or Failed with the error in
status.error); return the pod to Ready with the counters updated.  Each
store Update that fails NotFound aborts the call, returning the store as
mutated so far together with the error. -/
def executeTask (σ : StoreState) (task : DevTask) (pod : AgentPod)
    (executor : ExecutionRequest → Option Nat → Except String String)
    (ctxDeadline : Option Nat) (defaultMaxTokens : Int) (now finishedAt : Nat) :
    StoreState × Option String :=
  let taskKey := resourceKey kindDevTask task.metadata.project task.metadata.name
  let podKey := resourceKey kindAgentPod pod.metadata.project pod.metadata.name
  let t1 : DevTask :=
    { task with
      status := { task.status with
        phase := taskRunning
        assignedPod := pod.metadata.name
        startedAt := now }
      metadata := { task.metadata with updatedAt := now } }
  match updateKV σ.tasks taskKey t1 with
  | none => (σ, some "failed to set task Running: key not found")
  | some tasks1 =>
    let σ1 : StoreState := { σ with tasks := tasks1 }
    let p1 := execBusyStep pod now
    match updateKV σ1.pods podKey p1 with
    | none => (σ1, some "failed to set pod Busy: key not found")
    | some pods1 =>
      let σ2 : StoreState := { σ1 with pods := pods1 }
      let call := executorInvocation task pod defaultMaxTokens ctxDeadline
      let res := executor call.1 call.2
      let t2 : DevTask :=
        match res with
        | Except.error msg =>
          { t1 with
            status := { t1.status with phase := taskFailed, error := msg, finishedAt := finishedAt }
            metadata := { t1.metadata with updatedAt := finishedAt } }
        | Except.ok out =>
          { t1 with
            status := { t1.status with phase := taskSucceeded, output := out, finishedAt := finishedAt }
            metadata := { t1.metadata with updatedAt := finishedAt } }
      match updateKV σ2.tasks taskKey t2 with
      | none => (σ2, some "failed to update task status: key not found")
      | some tasks2 =>
        let σ3 : StoreState := { σ2 with tasks := tasks2 }
        let p2 := execDoneStep p1 (match res with | Except.error _ => true | Except.ok _ => false) finishedAt
        match updateKV σ3.pods podKey p2 with
        | none => (σ3, some "failed to update pod status: key not found")
        | some pods2 => ({ σ3 with pods := pods2 }, none)

/-- The pod used in the concurrency scenario: Ready, no active task, and
room for two concurrent tasks. -/
def c4Pod : AgentPod :=
  { apiVersion := apiVersionV1alpha1, kind := kindAgentPod
    metadata := { name := "w", project := "p", labels := [], uid := "uw", createdAt := 0, updatedAt := 0 }
    spec := { model := "m", systemPrompt := "", capabilities := [], maxConcurrency := 2,
              maxTokens := 0, tools := [], restartPolicy := "", ownerPool := "" }
    status := { phase := podReady, activeTasks := 0, completedTasks := 0, failedTasks := 0,
                lastHeartbeat := 0, message := "", startedAt := 0 } }

/-- C4: two ExecuteTask calls run concurrently on `c4Pod`
(maxConcurrency = 2).  Every store write of ExecuteTask is computed from
the caller-local pod copy read before the call, so the interleavings below
are exactly the sequences of mutex-protected writes the code performs; the
store holds the last value written.

First interleaving: both callers read the pod while it is Ready (the
scheduler only assigns to Ready pods), then T1 starts, T2 starts, T1
finishes while T2 is still executing.  T1's finishing write is
execDoneStep (execBusyStep c4Pod 0) false 1, and it leaves the stored pod
Ready with activeTasks = 0 even though T2 is still running — the claim
requires the pod to stay Busy with activeTasks > 0.

Second interleaving: T2 reads the pod after T1's Busy write, then T1
finishes, then T2 finishes.  The final, steady-state store value is T2's
finishing write execDoneStep (execBusyStep (execBusyStep c4Pod 0) 0) false 2,
which is Ready with activeTasks = 1 — violating phase = Busy iff
activeTasks > 0 in the steady state with no task running at all. -/
theorem C4_concurrent_execution_breaks_invariant :
    ((execDoneStep (execBusyStep c4Pod 0) false 1).status.phase = podReady ∧
      (execDoneStep (execBusyStep c4Pod 0) false 1).status.activeTasks = 0) ∧
    ((execDoneStep (execBusyStep (execBusyStep c4Pod 0) 0) false 2).status.phase = podReady ∧
      (execDoneStep (execBusyStep (execBusyStep c4Pod 0) 0) false 2).status.activeTasks = 1) := by
  decide

/-- C6: the invocation ExecuteTask makes on the downstream executor does
not depend on the task's timeoutSeconds in any way, and the context
deadline it passes is the caller's deadline unchanged: no deadline is ever
derived from timeoutSeconds, so an execution that outlives timeoutSeconds
is not cancelled (TimeoutSeconds is never read by the runtime or the
executor). -/
theorem C6_executor_unbounded_by_timeout (task : DevTask) (pod : AgentPod)
    (defaultMaxTokens : Int) (ctxDeadline : Option Nat) (n : Int) :
    executorInvocation { task with spec := { task.spec with timeoutSeconds := n } }
        pod defaultMaxTokens ctxDeadline
      = executorInvocation task pod defaultMaxTokens ctxDeadline ∧
    (executorInvocation task pod defaultMaxTokens ctxDeadline).2 = ctxDeadline := by
  exact ⟨rfl, rfl⟩

/-- Updating an absent key fails with NotFound. -/
theorem updateKV_none_of_lookup_none {α : Type} (l : List (String × α)) (k : String) (v : α)
    (h : lookupKV l k = none) : updateKV l k v = none := by
  cases hfind : l.find? (fun p => p.1 == k) with
  | some q =>
    unfold lookupKV at h
    rw [hfind] at h
    simp at h
  | none =>
    have hall := List.find?_eq_none.mp hfind
    unfold updateKV
    rw [if_neg]
    intro hany
    obtain ⟨x, hx, hxk⟩ := List.any_eq_true.mp hany
    exact hall x hx hxk

/-- C10: when the task is absent from the store, the initial Update
marking it Running fails NotFound and ExecuteTask returns that error
before touching the pod: the returned store is exactly the input store
(in particular every stored pod, with its phase, activeTasks,
completedTasks and failedTasks, is unchanged) and the call reports an
error.  The pod is made Busy only on the path where the task was
successfully marked Running. -/
theorem C10_missing_task_leaves_pod_untouched (σ : StoreState) (task : DevTask)
    (pod : AgentPod) (executor : ExecutionRequest → Option Nat → Except String String)
    (ctxDeadline : Option Nat) (defaultMaxTokens : Int) (now finishedAt : Nat)
    (h : lookupKV σ.tasks (resourceKey kindDevTask task.metadata.project task.metadata.name) = none) :
    (executeTask σ task pod executor ctxDeadline defaultMaxTokens now finishedAt).1 = σ ∧
    (executeTask σ task pod executor ctxDeadline defaultMaxTokens now finishedAt).2.isSome = true := by
  have hupd : ∀ v : DevTask,
      updateKV σ.tasks (resourceKey kindDevTask task.metadata.project task.metadata.name) v = none :=
    fun v => updateKV_none_of_lookup_none _ _ v h
  simp [executeTask, hupd]

/-- Witness for C10 at a concrete store that holds the pod but not the
task: the store comes back unchanged and an error is reported. -/
theorem C10_missing_task_leaves_pod_untouched_witness :
    (executeTask ⟨[], [("/AgentPod/p/w", c4Pod)]⟩ c3Task c4Pod
        (fun _ _ => Except.ok "out") none 1024 0 1).1 = ⟨[], [("/AgentPod/p/w", c4Pod)]⟩ ∧
    (executeTask ⟨[], [("/AgentPod/p/w", c4Pod)]⟩ c3Task c4Pod
        (fun _ _ => Except.ok "out") none 1024 0 1).2.isSome = true := by
  exact C10_missing_task_leaves_pod_untouched ⟨[], [("/AgentPod/p/w", c4Pod)]⟩ c3Task c4Pod
    (fun _ _ => Except.ok "out") none 1024 0 1 (by decide)

/-! ### Task retry, from internal/controller/devtask.go -/

/-- DevTaskController.reconcileFailed from devtask.go (lines 185-218), as
the stored task it leaves behind: no-op when maxRetries is not positive or
retries has reached maxRetries; otherwise reset to Pending with retries
incremented and assignedPod and error cleared. -/
def reconcileFailed (t : DevTask) : DevTask :=
  if t.spec.maxRetries ≤ 0 then t
  else if t.status.retries ≥ t.spec.maxRetries then t
  else
    { t with
      status := { t.status with
        phase := taskPending
        retries := t.status.retries + 1
        assignedPod := ""
        error := "" } }

/-- C7: reconcileFailed resets a Failed task to Pending with retries
incremented by exactly one and assignedPod and error cleared precisely when
maxRetries > 0 and retries < maxRetries (leaving spec and metadata
untouched), is the identity otherwise, and consequently preserves
retries ≤ maxRetries. -/
theorem C7_retry_iff_under_max (t : DevTask)
    (hinv : t.status.retries ≤ t.spec.maxRetries) :
    ((0 < t.spec.maxRetries ∧ t.status.retries < t.spec.maxRetries) →
      (reconcileFailed t).status.phase = taskPending ∧
      (reconcileFailed t).status.retries = t.status.retries + 1 ∧
      (reconcileFailed t).status.assignedPod = "" ∧
      (reconcileFailed t).status.error = "" ∧
      (reconcileFailed t).spec = t.spec ∧
      (reconcileFailed t).metadata = t.metadata) ∧
    (¬(0 < t.spec.maxRetries ∧ t.status.retries < t.spec.maxRetries) →
      reconcileFailed t = t) ∧
    (reconcileFailed t).status.retries ≤ t.spec.maxRetries := by
  unfold reconcileFailed
  by_cases h1 : t.spec.maxRetries ≤ 0
  · rw [if_pos h1]
    exact ⟨fun hc => absurd hc.1 (by omega), fun _ => rfl, hinv⟩
  · rw [if_neg h1]
    by_cases h2 : t.status.retries ≥ t.spec.maxRetries
    · rw [if_pos h2]
      exact ⟨fun hc => absurd hc.2 (by omega), fun _ => rfl, hinv⟩
    · rw [if_neg h2]
      refine ⟨fun _ => ⟨rfl, rfl, rfl, rfl, rfl, rfl⟩, fun hc => absurd ⟨by omega, by omega⟩ hc, ?_⟩
      simp only
      omega

/-- A concrete Failed task with retries = 0 and maxRetries = 2, used as
the C7 witness input. -/
def c7Task : DevTask :=
  { c3Task with
    spec := { c3Task.spec with maxRetries := 2 }
    status := { c3Task.status with
      phase := taskFailed
      assignedPod := "w"
      error := "claude CLI error: boom"
      retries := 0 } }

/-- Witness for C7 at a concrete Failed task with retries = 0 and
maxRetries = 2. -/
theorem C7_retry_iff_under_max_witness :
    ((0 < c7Task.spec.maxRetries ∧ c7Task.status.retries < c7Task.spec.maxRetries) →
      (reconcileFailed c7Task).status.phase = taskPending ∧
      (reconcileFailed c7Task).status.retries = c7Task.status.retries + 1 ∧
      (reconcileFailed c7Task).status.assignedPod = "" ∧
      (reconcileFailed c7Task).status.error = "" ∧
      (reconcileFailed c7Task).spec = c7Task.spec ∧
      (reconcileFailed c7Task).metadata = c7Task.metadata) ∧
    (¬(0 < c7Task.spec.maxRetries ∧ c7Task.status.retries < c7Task.spec.maxRetries) →
      reconcileFailed c7Task = c7Task) ∧
    (reconcileFailed c7Task).status.retries ≤ c7Task.spec.maxRetries :=
  C7_retry_iff_under_max c7Task (by decide)

/-! ### Pool reconciliation, from internal/controller/agentpool.go

The scale-down step (Reconcile lines 108-149) makes two passes over the
owned pods: the first marks non-busy pods Terminating until the deficit is
covered, the second marks busy pods only if the first pass fell short.  The
status step (lines 151-207) recounts the owned non-terminal pods, re-reads
the pool, and writes only when one of the three counts differs. -/

/-- The pod filter at Reconcile lines 72-83: owned by the pool and neither
Terminated nor Terminating. -/
def ownedActivePods (pods : List AgentPod) (poolName : String) : List AgentPod :=
  pods.filter (fun p =>
    p.spec.ownerPool == poolName &&
      !(p.status.phase == podTerminated) && !(p.status.phase == podTerminating))

/-- The per-pod mutation of the scale-down step (lines 119-120 and
135-136). -/
def markTerminating (p : AgentPod) : AgentPod :=
  { p with status := { p.status with phase := podTerminating, message := "scaling down" } }

/-- First scale-down pass (lines 113-127): walk the owned pods, marking
pods whose phase is not Busy until the budget is exhausted; returns the
updated list and the number marked. -/
def scaleDownNonBusy : List AgentPod → Nat → List AgentPod × Nat
  | [], _ => ([], 0)
  | p :: ps, b =>
    if b = 0 then (p :: ps, 0)
    else if p.status.phase != podBusy then
      let r := scaleDownNonBusy ps (b - 1)
      (markTerminating p :: r.1, r.2 + 1)
    else
      let r := scaleDownNonBusy ps b
      (p :: r.1, r.2)

/-- Second scale-down pass (lines 129-144): walk the (already mutated)
owned pods, marking Busy pods until the remaining budget is exhausted. -/
def scaleDownBusy : List AgentPod → Nat → List AgentPod × Nat
  | [], _ => ([], 0)
  | p :: ps, b =>
    if b = 0 then (p :: ps, 0)
    else if p.status.phase == podBusy then
      let r := scaleDownBusy ps (b - 1)
      (markTerminating p :: r.1, r.2 + 1)
    else
      let r := scaleDownBusy ps b
      (p :: r.1, r.2)

/-- The whole scale-down step (lines 108-149): the second pass runs only
if the first did not cover the deficit. -/
def scaleDown (pods : List AgentPod) (toTerminate : Nat) : List AgentPod :=
  let r1 := scaleDownNonBusy pods toTerminate
  if r1.2 < toTerminate then (scaleDownBusy r1.1 (toTerminate - r1.2)).1 else r1.1

theorem scaleDownNonBusy_marked (ps : List AgentPod) :
    ∀ b, (scaleDownNonBusy ps b).2 = min b (ps.countP (fun p => p.status.phase != podBusy)) := by
  induction ps with
  | nil => intro b; simp [scaleDownNonBusy]
  | cons p ps ih =>
    intro b
    by_cases hb : b = 0
    · subst hb; simp [scaleDownNonBusy]
    · simp only [scaleDownNonBusy, if_neg hb]
      by_cases hp : (p.status.phase != podBusy) = true
      · rw [if_pos hp]
        simp [List.countP_cons, hp, ih] <;> omega
      · rw [if_neg hp]
        simp [List.countP_cons, hp, ih] <;> omega

theorem scaleDownNonBusy_term_count (ps : List AgentPod)
    (hclean : ∀ p ∈ ps, (p.status.phase == podTerminating) = false) :
    ∀ b, ((scaleDownNonBusy ps b).1.countP (fun p => p.status.phase == podTerminating))
      = ps.countP (fun p => p.status.phase == podTerminating) + (scaleDownNonBusy ps b).2 := by
  induction ps with
  | nil => intro b; simp [scaleDownNonBusy]
  | cons p ps ih =>
    intro b
    have hhead := hclean p (List.mem_cons_self p ps)
    have htail : ∀ q ∈ ps, (q.status.phase == podTerminating) = false :=
      fun q hq => hclean q (List.mem_cons_of_mem p hq)
    by_cases hb : b = 0
    · subst hb; simp [scaleDownNonBusy]
    · simp only [scaleDownNonBusy, if_neg hb]
      by_cases hp : (p.status.phase != podBusy) = true
      · rw [if_pos hp]
        simp [List.countP_cons, hhead, markTerminating, ih htail] <;> omega
      · rw [if_neg hp]
        simp [List.countP_cons, hhead, ih htail] <;> omega

theorem scaleDownNonBusy_busy_mem (ps : List AgentPod) (p : AgentPod)
    (hbusy : (p.status.phase == podBusy) = true) :
    ∀ b, p ∈ ps → p ∈ (scaleDownNonBusy ps b).1 := by
  induction ps with
  | nil => intro b hp; exact absurd hp (List.not_mem_nil p)
  | cons q qs ih =>
    intro b hp
    by_cases hb : b = 0
    · subst hb; simpa [scaleDownNonBusy] using hp
    · rcases List.mem_cons.mp hp with hpq | hptail
      · subst hpq
        have hq : (p.status.phase != podBusy) = false := by
          simp [bne, hbusy]
        simp [scaleDownNonBusy, if_neg hb, hq]
      · by_cases hq : (q.status.phase != podBusy) = true
        · simp only [scaleDownNonBusy, if_neg hb, if_pos hq]
          exact List.mem_cons_of_mem _ (ih (b - 1) hptail)
        · simp only [scaleDownNonBusy, if_neg hb, if_neg hq]
          exact List.mem_cons_of_mem _ (ih b hptail)

theorem scaleDownNonBusy_busy_count (ps : List AgentPod) :
    ∀ b, ((scaleDownNonBusy ps b).1.countP (fun p => p.status.phase == podBusy))
      = ps.countP (fun p => p.status.phase == podBusy) := by
  induction ps with
  | nil => intro b; simp [scaleDownNonBusy]
  | cons p ps ih =>
    intro b
    by_cases hb : b = 0
    · subst hb; simp [scaleDownNonBusy]
    · simp only [scaleDownNonBusy, if_neg hb]
      have hTB : (podTerminating == podBusy) = false := by decide
      by_cases hp : (p.status.phase != podBusy) = true
      · have hnb : (p.status.phase == podBusy) = false := by
          simpa [bne] using hp
        rw [if_pos hp]
        simp [List.countP_cons, hnb, markTerminating, hTB, ih] <;> omega
      · rw [if_neg hp]
        simp [List.countP_cons, ih] <;> omega

theorem scaleDownBusy_marked (ps : List AgentPod) :
    ∀ b, (scaleDownBusy ps b).2 = min b (ps.countP (fun p => p.status.phase == podBusy)) := by
  induction ps with
  | nil => intro b; simp [scaleDownBusy]
  | cons p ps ih =>
    intro b
    by_cases hb : b = 0
    · subst hb; simp [scaleDownBusy]
    · simp only [scaleDownBusy, if_neg hb]
      by_cases hp : (p.status.phase == podBusy) = true
      · rw [if_pos hp]
        simp [List.countP_cons, hp, ih] <;> omega
      · rw [if_neg hp]
        simp [List.countP_cons, hp, ih] <;> omega

theorem scaleDownBusy_term_count (ps : List AgentPod) :
    ∀ b, ((scaleDownBusy ps b).1.countP (fun p => p.status.phase == podTerminating))
      = ps.countP (fun p => p.status.phase == podTerminating) + (scaleDownBusy ps b).2 := by
  induction ps with
  | nil => intro b; simp [scaleDownBusy]
  | cons p ps ih =>
    intro b
    by_cases hb : b = 0
    · subst hb; simp [scaleDownBusy]
    · simp only [scaleDownBusy, if_neg hb]
      by_cases hp : (p.status.phase == podBusy) = true
      · have hnt : (p.status.phase == podTerminating) = false := by
          have hph : p.status.phase = podBusy := by simpa using hp
          rw [hph]; decide
        rw [if_pos hp]
        simp [List.countP_cons, hnt, markTerminating, ih] <;> omega
      · rw [if_neg hp]
        simp [List.countP_cons, ih] <;> omega

theorem countP_nonBusy_add_busy (ps : List AgentPod) :
    ps.countP (fun p => p.status.phase != podBusy) +
      ps.countP (fun p => p.status.phase == podBusy) = ps.length := by
  induction ps with
  | nil => rfl
  | cons p ps ih =>
    by_cases hp : (p.status.phase == podBusy) = true
    · have hnb : (p.status.phase != podBusy) = false := by simp [bne, hp]
      simp [List.countP_cons, hp, hnb] <;> omega
    · have hb : (p.status.phase == podBusy) = false := by simpa using hp
      have hnb : (p.status.phase != podBusy) = true := by simp [bne, hb]
      simp [List.countP_cons, hb, hnb] <;> omega

theorem ownedActivePods_not_terminating (pods : List AgentPod) (poolName : String) :
    ∀ p ∈ ownedActivePods pods poolName, (p.status.phase == podTerminating) = false := by
  intro p hp
  have := (List.mem_filter.mp hp).2
  simp only [Bool.and_eq_true, Bool.not_eq_true'] at this
  exact this.2

/-- C8: when a pool has more owned non-terminal pods than the declared
replicas, the scale-down step marks exactly actual - desired of them
Terminating, and it touches Busy pods only when the non-Busy pods do not
cover the deficit: if actual - desired of the owned pods are non-Busy, every
Busy owned pod survives unchanged. -/
theorem C8_scale_down_prefers_idle (pods : List AgentPod) (poolName : String) (desired : Nat)
    (hscale : desired < (ownedActivePods pods poolName).length) :
    ((scaleDown (ownedActivePods pods poolName)
        ((ownedActivePods pods poolName).length - desired)).countP
        (fun p => p.status.phase == podTerminating)
      = (ownedActivePods pods poolName).length - desired) ∧
    ((ownedActivePods pods poolName).length - desired
        ≤ (ownedActivePods pods poolName).countP (fun p => p.status.phase != podBusy) →
      ∀ p ∈ ownedActivePods pods poolName, (p.status.phase == podBusy) = true →
        p ∈ scaleDown (ownedActivePods pods poolName)
              ((ownedActivePods pods poolName).length - desired)) := by
  set owned := ownedActivePods pods poolName with howned
  set d := owned.length - desired with hd
  have hclean : ∀ p ∈ owned, (p.status.phase == podTerminating) = false := by
    rw [howned]; exact ownedActivePods_not_terminating pods poolName
  have hterm0 : owned.countP (fun p => p.status.phase == podTerminating) = 0 :=
    List.countP_eq_zero.mpr (by intro p hp; simp [hclean p hp])
  have hsum := countP_nonBusy_add_busy owned
  have hm1 := scaleDownNonBusy_marked owned d
  have ht1 := scaleDownNonBusy_term_count owned hclean d
  have hb1 := scaleDownNonBusy_busy_count owned d
  constructor
  · unfold scaleDown
    by_cases hcover : (scaleDownNonBusy owned d).2 < d
    · rw [if_pos hcover]
      have ht2 := scaleDownBusy_term_count (scaleDownNonBusy owned d).1 (d - (scaleDownNonBusy owned d).2)
      have hm2 := scaleDownBusy_marked (scaleDownNonBusy owned d).1 (d - (scaleDownNonBusy owned d).2)
      rw [ht2, hm2, hb1, ht1, hterm0]
      omega
    · rw [if_neg hcover]
      rw [ht1, hterm0]
      omega
  · intro hidle p hp hbusy
    have hno2 : ¬ (scaleDownNonBusy owned d).2 < d := by
      rw [hm1]; omega
    unfold scaleDown
    rw [if_neg hno2]
    exact scaleDownNonBusy_busy_mem owned p hbusy d hp

/-- The three pods of the concrete spec scenario: one Busy between two
Ready pods, all owned by pool1. -/
def c8ReadyPod1 : AgentPod :=
  { c4Pod with
    metadata := { c4Pod.metadata with name := "pool1-a" }
    spec := { c4Pod.spec with ownerPool := "pool1" } }

def c8BusyPod : AgentPod :=
  { c4Pod with
    metadata := { c4Pod.metadata with name := "pool1-b" }
    spec := { c4Pod.spec with ownerPool := "pool1" }
    status := { c4Pod.status with phase := podBusy, activeTasks := 1 } }

def c8ReadyPod2 : AgentPod :=
  { c4Pod with
    metadata := { c4Pod.metadata with name := "pool1-c" }
    spec := { c4Pod.spec with ownerPool := "pool1" } }

def c8Pods : List AgentPod := [c8ReadyPod1, c8BusyPod, c8ReadyPod2]

/-- Witness for C8 at the spec scenario: three owned pods, one Busy and
two Ready, scaled down to one replica: exactly two pods end up
Terminating and the Busy pod is untouched. -/
theorem C8_scale_down_prefers_idle_witness :
    ((scaleDown (ownedActivePods c8Pods "pool1")
        ((ownedActivePods c8Pods "pool1").length - 1)).countP
        (fun p => p.status.phase == podTerminating)
      = (ownedActivePods c8Pods "pool1").length - 1) ∧
    ((ownedActivePods c8Pods "pool1").length - 1
        ≤ (ownedActivePods c8Pods "pool1").countP (fun p => p.status.phase != podBusy) →
      ∀ p ∈ ownedActivePods c8Pods "pool1", (p.status.phase == podBusy) = true →
        p ∈ scaleDown (ownedActivePods c8Pods "pool1")
              ((ownedActivePods c8Pods "pool1").length - 1)) :=
  C8_scale_down_prefers_idle c8Pods "pool1" 1 (by decide)

/-- The status recount loop of Reconcile (agentpool.go lines 160-179):
owned non-terminal pods counted into replicas, with Ready and Busy
sub-counts. -/
def computePoolCounts (pods : List AgentPod) (poolName : String) : AgentPoolStatus :=
  pods.foldl
    (fun c p =>
      if p.spec.ownerPool != poolName then c
      else if p.status.phase == podTerminated || p.status.phase == podTerminating then c
      else
        { replicas := c.replicas + 1
          readyReplicas := if p.status.phase == podReady then c.readyReplicas + 1 else c.readyReplicas
          busyReplicas := if p.status.phase == podBusy then c.busyReplicas + 1 else c.busyReplicas })
    ⟨0, 0, 0⟩

/-- The guarded status write of Reconcile (agentpool.go lines 181-207):
compare the freshly re-read pool's status with the recomputed counts and
return the pool to write, or nothing when all three counts already agree. -/
def poolStatusUpdate (freshPool : AgentPool) (pods : List AgentPod) : Option AgentPool :=
  let c := computePoolCounts pods freshPool.metadata.name
  if freshPool.status.replicas = c.replicas ∧ freshPool.status.readyReplicas = c.readyReplicas ∧
      freshPool.status.busyReplicas = c.busyReplicas then
    none
  else some { freshPool with status := c }

theorem poolStatus_eq_iff (a b : AgentPoolStatus) :
    a = b ↔ a.replicas = b.replicas ∧ a.readyReplicas = b.readyReplicas ∧
      a.busyReplicas = b.busyReplicas := by
  cases a; cases b; simp

/-- C9: the status step writes nothing exactly when the re-read pool
already carries the recomputed counts — so an unchanged pool produces no
store Update and hence no MODIFIED event — and when it does write, the
written pool is the re-read pool with only the three status counts
replaced, at least one of which differs. -/
theorem C9_status_write_guard (freshPool : AgentPool) (pods : List AgentPod) :
    (poolStatusUpdate freshPool pods = none ↔
      freshPool.status = computePoolCounts pods freshPool.metadata.name) ∧
    (∀ w, poolStatusUpdate freshPool pods = some w →
      w = { freshPool with status := computePoolCounts pods freshPool.metadata.name } ∧
      w.status ≠ freshPool.status ∧ w.spec = freshPool.spec ∧ w.metadata = freshPool.metadata) := by
  unfold poolStatusUpdate
  by_cases h : freshPool.status.replicas = (computePoolCounts pods freshPool.metadata.name).replicas ∧
      freshPool.status.readyReplicas = (computePoolCounts pods freshPool.metadata.name).readyReplicas ∧
      freshPool.status.busyReplicas = (computePoolCounts pods freshPool.metadata.name).busyReplicas
  · rw [if_pos h]
    constructor
    · exact iff_of_true rfl ((poolStatus_eq_iff _ _).mpr h)
    · intro w hw; exact absurd hw (by simp)
  · rw [if_neg h]
    constructor
    · constructor
      · intro hw; exact absurd hw (by simp)
      · intro hs; exact absurd ((poolStatus_eq_iff _ _).mp hs) h
    · intro w hw
      injection hw with hw2
      subst hw2
      refine ⟨rfl, ?_, rfl, rfl⟩
      intro hs
      have hs2 : computePoolCounts pods freshPool.metadata.name = freshPool.status := hs
      exact h ((poolStatus_eq_iff _ _).mp hs2.symm)

/-- A pool whose stored status is stale, and its one owned Ready pod. -/
def c9Pool : AgentPool :=
  { apiVersion := apiVersionV1alpha1, kind := kindAgentPool
    metadata := { name := "pool1", project := "p", labels := [], uid := "up", createdAt := 0, updatedAt := 0 }
    spec := { replicas := 1, selector := [] }
    status := { replicas := 0, readyReplicas := 0, busyReplicas := 0 } }

/-- Witness for C9: with one owned Ready pod and a stale status of all
zeroes, the guard decides to write, and the written pool is the re-read
pool with status ⟨1, 1, 0⟩. -/
theorem C9_status_write_guard_witness :
    ({ c9Pool with status := computePoolCounts [c8ReadyPod1] c9Pool.metadata.name } : AgentPool)
        = { c9Pool with status := computePoolCounts [c8ReadyPod1] c9Pool.metadata.name } ∧
    ({ c9Pool with status := computePoolCounts [c8ReadyPod1] c9Pool.metadata.name } : AgentPool).status
        ≠ c9Pool.status ∧
    ({ c9Pool with status := computePoolCounts [c8ReadyPod1] c9Pool.metadata.name } : AgentPool).spec
        = c9Pool.spec ∧
    ({ c9Pool with status := computePoolCounts [c8ReadyPod1] c9Pool.metadata.name } : AgentPool).metadata
        = c9Pool.metadata :=
  (C9_status_write_guard c9Pool [c8ReadyPod1]).2
    { c9Pool with status := computePoolCounts [c8ReadyPod1] c9Pool.metadata.name }
    (by decide)

/-! ### Apply, from internal/apiserver/handlers.go

The DevTask branch of handleApply (lines 821-860): reject an empty
project; force apiVersion and kind; when the key is absent, create with a
fresh uid, createdAt = updatedAt = now and status.phase forced to Pending;
when it exists, keep the request body but restore uid and createdAt from
the existing object and refresh updatedAt.  The function below returns the
object the handler stores; `existing` is what the preceding store Get
found, `now` the handler timestamp, `freshUID` the generated uuid. -/

/-- The DevTask branch of Server.handleApply (handlers.go lines 821-860). -/
def applyDevTask (existing : Option DevTask) (req : DevTask) (now : Nat) (freshUID : String) :
    Except String DevTask :=
  if req.metadata.project = "" then Except.error "metadata.project is required for DevTask"
  else
    let t : DevTask := { req with apiVersion := apiVersionV1alpha1, kind := kindDevTask }
    match existing with
    | none =>
      Except.ok
        { t with
          metadata := { t.metadata with uid := freshUID, createdAt := now, updatedAt := now }
          status := { t.status with phase := taskPending } }
    | some ex =>
      Except.ok
        { t with
          metadata := { t.metadata with
            uid := ex.metadata.uid
            createdAt := ex.metadata.createdAt
            updatedAt := now } }

/-- A typical user-supplied manifest body: no uid, no timestamps, empty
status. -/
def c5Request : DevTask :=
  { apiVersion := "", kind := kindDevTask
    metadata := { name := "t1", project := "p", labels := [], uid := "", createdAt := 0, updatedAt := 0 }
    spec := { prompt := "build", requiredCapabilities := [], preferredModel := "",
              maxRetries := 0, timeoutSeconds := 0, dependsOn := [] }
    status := { phase := "", assignedPod := "", retries := 0, output := "",
                error := "", startedAt := 0, finishedAt := 0 } }

/-- The state stored by the first Apply of `c5Request` at time 1 with uid
u1: phase defaulted to Pending. -/
def c5First : DevTask :=
  { c5Request with
    apiVersion := apiVersionV1alpha1
    metadata := { c5Request.metadata with uid := "u1", createdAt := 1, updatedAt := 1 }
    status := { c5Request.status with phase := taskPending } }

/-- The state stored by the second Apply of the same `c5Request` at time
2: uid and createdAt are preserved, but updatedAt moves and the status is
the request's empty status again. -/
def c5Second : DevTask :=
  { c5Request with
    apiVersion := apiVersionV1alpha1
    metadata := { c5Request.metadata with uid := "u1", createdAt := 1, updatedAt := 2 } }

/-- C5 counterexample: applying the same DevTask body twice does not yield
identical stored state.  The first call stores phase Pending (the create
path forces it); the second call stores the request's status verbatim, so
the phase reverts to the empty string, and updatedAt moves from 1 to 2. -/
theorem C5_reapply_not_identical :
    applyDevTask none c5Request 1 "u1" = Except.ok c5First ∧
    applyDevTask (some c5First) c5Request 2 "u2" = Except.ok c5Second ∧
    c5First.status.phase = taskPending ∧
    c5Second.status.phase = "" ∧
    c5Second ≠ c5First := by
  refine ⟨rfl, rfl, rfl, rfl, ?_⟩
  decide

/-- C5 (amended): the second Apply of the same body preserves the
server-assigned uid and createdAt and stores the request's metadata and
spec unchanged, with updatedAt refreshed to the second call's time; the
status it stores is the request's status verbatim, while the first call
stored the request's status with phase forced to Pending — so the two
stored states agree except for updatedAt and the re-defaulted status. -/
theorem C5_apply_preserves_uid_createdAt (X : DevTask) (t1 t2 : Nat) (u1 u2 : String)
    (s1 s2 : DevTask)
    (h1 : applyDevTask none X t1 u1 = Except.ok s1)
    (h2 : applyDevTask (some s1) X t2 u2 = Except.ok s2) :
    s2.metadata.uid = s1.metadata.uid ∧
    s2.metadata.createdAt = s1.metadata.createdAt ∧
    s2.metadata.updatedAt = t2 ∧
    s2.metadata.name = s1.metadata.name ∧
    s2.metadata.project = s1.metadata.project ∧
    s2.metadata.labels = s1.metadata.labels ∧
    s2.spec = X.spec ∧ s1.spec = X.spec ∧
    s2.status = X.status ∧
    s1.status = { X.status with phase := taskPending } := by
  by_cases hp : X.metadata.project = ""
  · rw [applyDevTask, if_pos hp] at h1
    exact absurd h1 (by simp)
  · rw [applyDevTask, if_neg hp] at h1
    rw [applyDevTask, if_neg hp] at h2
    injection h1 with e1
    injection h2 with e2
    subst e1
    subst e2
    exact ⟨rfl, rfl, rfl, rfl, rfl, rfl, rfl, rfl, rfl, rfl⟩

/-- Witness for C5 (amended) at the concrete double Apply of
`c5Request`. -/
theorem C5_apply_preserves_uid_createdAt_witness :
    c5Second.metadata.uid = c5First.metadata.uid ∧
    c5Second.metadata.createdAt = c5First.metadata.createdAt ∧
    c5Second.metadata.updatedAt = 2 ∧
    c5Second.metadata.name = c5First.metadata.name ∧
    c5Second.metadata.project = c5First.metadata.project ∧
    c5Second.metadata.labels = c5First.metadata.labels ∧
    c5Second.spec = c5Request.spec ∧ c5First.spec = c5Request.spec ∧
    c5Second.status = c5Request.status ∧
    c5First.status = { c5Request.status with phase := taskPending } :=
  C5_apply_preserves_uid_createdAt c5Request 1 2 "u1" "u2" c5First c5Second rfl rfl

end Orca
